import Mathlib

/-!
Shallow embedding of `src/index.ts` (SolanaBlockchainQuery): the
block-fetch / transaction-normalization / serialization pipeline, with
machine integers modelled as `Int` and JS `undefined`/`null` modelled as
`Option`. Fallible operations (RPC fetches, normalization) return
`Option`, mirroring the source's `try/catch → null` structure.
-/

namespace TxParser

/-- One compiled instruction of a transaction message
(`tx.transaction.message.instructions` elements). -/
structure CompiledInstruction where
  programIdIndex : Nat
  accounts : List Nat
  data : String
  deriving Repr, DecidableEq

/-- `tx.meta`: fee, balance snapshots and optional error object.
`err : Option String` models the JS `err` field, `none` when `null`. -/
structure TransactionMeta where
  fee : Int
  preBalances : List Int
  postBalances : List Int
  err : Option String
  deriving Repr, DecidableEq

/-- `tx.transaction.message`. `accountKeys` is `Option` because the source
guards with `accountKeys?.length` (the list may be absent). Keys are kept
as their base-58 strings (`toBase58` applied). -/
structure TxMessage where
  accountKeys : Option (List String)
  instructions : List CompiledInstruction
  deriving Repr, DecidableEq

/-- `tx.transaction`. -/
structure SolTransaction where
  signatures : List String
  message : TxMessage
  deriving Repr, DecidableEq

/-- A `TransactionResponse` from the RPC: transaction plus optional meta. -/
structure TransactionResponse where
  transaction : SolTransaction
  meta : Option TransactionMeta
  deriving Repr, DecidableEq

/-- A `BlockResponse`: hash, optional timestamp, ordered transactions. -/
structure BlockResponse where
  blockhash : String
  blockTime : Option Int
  transactions : List TransactionResponse
  deriving Repr, DecidableEq

/-- The canonical flat record (`interface TransactionData`).
`hash` is `Option String`: `tx.transaction.signatures[0]` is `undefined`
in JS when the signature list is empty, and `JSON.stringify` then omits
the key. `nonce` is `number | null` in the source. -/
structure TransactionData where
  hash : Option String
  nonce : Option Int
  transaction_index : Nat
  from_address : String
  to_address : String
  value : Int
  gas : Int
  gas_price : Int
  input : String
  receipt_cumulative_gas_used : Int
  receipt_gas_used : Int
  receipt_contract_address : Option String
  receipt_root : Option String
  receipt_status : Int
  block_timestamp : Int
  block_number : Int
  block_hash : String
  max_fee_per_gas : Int
  max_priority_fee_per_gas : Int
  transaction_type : Int
  receipt_effective_gas_price : Int
  source : String
  created_at : String
  deriving Repr, DecidableEq

/-- `tx.meta?.preBalances[1] || 0` (line 68): absent meta or a missing
second entry yields 0; a present 0 is also 0, so `getD` is exact. -/
def preBalance1 (tx : TransactionResponse) : Int :=
  match tx.meta with
  | none => 0
  | some m => m.preBalances.getD 1 0

/-- `tx.meta?.postBalances[1] || 0` (line 69). -/
def postBalance1 (tx : TransactionResponse) : Int :=
  match tx.meta with
  | none => 0
  | some m => m.postBalances.getD 1 0

/-- `tx.meta?.fee || 0` (lines 79, 82, 83). -/
def feeOf (tx : TransactionResponse) : Int :=
  match tx.meta with
  | none => 0
  | some m => m.fee

/-- `tx.meta?.err ? 0 : 1` (line 86). -/
def statusOf (tx : TransactionResponse) : Int :=
  match tx.meta with
  | none => 1
  | some m => match m.err with
    | none => 1
    | some _ => 0

/-- A literal rendering of one `CompiledInstruction` as produced by
`JSON.stringify` on the instruction object (used only for the `input`
field; no claim inspects its contents). -/
def stringifyInstruction (ins : CompiledInstruction) : String :=
  "\x7b\"programIdIndex\":" ++ toString ins.programIdIndex ++
    ",\"accounts\":[" ++ String.intercalate "," (ins.accounts.map toString) ++
    "],\"data\":\"" ++ ins.data ++ "\"\x7d"

/-- `JSON.stringify(tx.transaction.message.instructions)` (line 81). -/
def stringifyInstructions (l : List CompiledInstruction) : String :=
  "[" ++ String.intercalate "," (l.map stringifyInstruction) ++ "]"

/-- `transformTransaction` (lines 53-101). The embedding adds a `now`
parameter for the impure `new Date().toISOString()` at line 95. The
`try/catch` cannot fire here: every access the source performs is total
on the typed data, and the one genuinely partial access
(`accountKeys?.length`) is the explicit guard at line 62, which returns
`null` (here `none`). `accountKeys[1]?.toBase58() || ""` is `headD ""`
on the tail. -/
def transformTransaction (tx : TransactionResponse)
    (blockTimestamp blockNumber : Int) (blockHash : String)
    (index : Nat) (now : String) : Option TransactionData :=
  match tx.transaction.message.accountKeys with
  | none => none
  | some [] => none
  | some (k0 :: rest) =>
    let fromAddress := k0
    let toAddress := rest.headD ""
    let value := max 0 (postBalance1 tx - preBalance1 tx)
    some {
      hash := tx.transaction.signatures.head?
      nonce := none
      transaction_index := index
      from_address := fromAddress
      to_address := toAddress
      value := value
      gas := feeOf tx
      gas_price := 1
      input := stringifyInstructions tx.transaction.message.instructions
      receipt_cumulative_gas_used := feeOf tx
      receipt_gas_used := feeOf tx
      receipt_contract_address := none
      receipt_root := none
      receipt_status := statusOf tx
      block_timestamp := blockTimestamp
      block_number := blockNumber
      block_hash := blockHash
      max_fee_per_gas := 0
      max_priority_fee_per_gas := 0
      transaction_type := 0
      receipt_effective_gas_price := 0
      source := "solana_testnet"
      created_at := now
    }

/-- The per-transaction step of the `forEach` at lines 118-129: pair a
source position with a transaction and normalize. -/
def txRecord (blockTimestamp blockNumber : Int) (blockHash : String)
    (now : String) (p : Nat × TransactionResponse) : Option TransactionData :=
  transformTransaction p.2 blockTimestamp blockNumber blockHash p.1 now

/-- Lines 118-129: iterate the block's transactions in order with their
positions, keep the successfully normalized ones
(`block.blockTime || 0` at line 121 is `getD 0`). -/
def processBlock (b : BlockResponse) (slot : Int) (now : String) :
    List TransactionData :=
  b.transactions.enum.filterMap (txRecord (b.blockTime.getD 0) slot b.blockhash now)

/-- One iteration of the slot loop (lines 111-130): fetch the block
(`getBlockData`, which returns `null` on failure — here the `getBlock`
argument already returns `Option`) and process it, or skip (`continue`). -/
def processSlot (getBlock : Int → Option BlockResponse) (slot : Int)
    (now : String) : List TransactionData :=
  match getBlock slot with
  | none => []
  | some b => processBlock b slot now

/-- `queryRecentBlocks` (lines 103-137): `currentSlot` is read once and
passed in; the loop visits `currentSlot - i` for `i = 0, …, numBlocks-1`,
appending each slot's records in order (the accumulating `push` loop is
the concatenation this `flatMap` performs). -/
def queryRecentBlocks (getBlock : Int → Option BlockResponse)
    (currentSlot : Int) (numBlocks : Nat) (now : String) :
    List TransactionData :=
  (List.range numBlocks).flatMap
    (fun (i : Nat) => processSlot getBlock (currentSlot - (i : Int)) now)

/-- The slots the run attempts, in visit order (line 111). -/
def attemptedSlots (currentSlot : Int) (numBlocks : Nat) : List Int :=
  (List.range numBlocks).map (fun (i : Nat) => currentSlot - (i : Int))

/-!
## JSON document model

`saveToFile` (line 144) emits `JSON.stringify(transactions, null, 2)`.
We model the resulting document as an abstract JSON tree: JS numbers
become `Json.num`, strings `Json.str`, `null` becomes `Json.null`, and
an `undefined` property is omitted from the object — exactly the
mapping `JSON.stringify` performs on the record's typed fields. A
`Json.num` renders as a bare decimal literal in the output text, a
`Json.str` as a quoted string.
-/

inductive Json where
  | null
  | str (s : String)
  | num (n : Int)
  | arr (elems : List Json)
  | obj (fields : List (String × Json))

/-- Whether a JSON value is a (decimal) string literal. -/
def Json.isStr : Json → Bool
  | Json.str _ => true
  | _ => false

/-- Look up a field of a JSON object. -/
def Json.lookupField (j : Json) (k : String) : Option Json :=
  match j with
  | Json.obj fields => List.lookup k fields
  | _ => none

/-- How `JSON.stringify` serializes one `TransactionData` record: each
field keeps its JS type (number fields are numeric literals, string
fields quoted strings, `null` fields `null`); an `undefined` `hash` is
dropped. Field order follows the interface declaration. -/
def jsonOfRecord (r : TransactionData) : Json :=
  Json.obj (
    (match r.hash with
     | some h => [("hash", Json.str h)]
     | none => []) ++
    [("nonce", match r.nonce with
       | some n => Json.num n
       | none => Json.null),
     ("transaction_index", Json.num r.transaction_index),
     ("from_address", Json.str r.from_address),
     ("to_address", Json.str r.to_address),
     ("value", Json.num r.value),
     ("gas", Json.num r.gas),
     ("gas_price", Json.num r.gas_price),
     ("input", Json.str r.input),
     ("receipt_cumulative_gas_used", Json.num r.receipt_cumulative_gas_used),
     ("receipt_gas_used", Json.num r.receipt_gas_used),
     ("receipt_contract_address", match r.receipt_contract_address with
       | some a => Json.str a
       | none => Json.null),
     ("receipt_root", match r.receipt_root with
       | some a => Json.str a
       | none => Json.null),
     ("receipt_status", Json.num r.receipt_status),
     ("block_timestamp", Json.num r.block_timestamp),
     ("block_number", Json.num r.block_number),
     ("block_hash", Json.str r.block_hash),
     ("max_fee_per_gas", Json.num r.max_fee_per_gas),
     ("max_priority_fee_per_gas", Json.num r.max_priority_fee_per_gas),
     ("transaction_type", Json.num r.transaction_type),
     ("receipt_effective_gas_price", Json.num r.receipt_effective_gas_price),
     ("source", Json.str r.source),
     ("created_at", Json.str r.created_at)])

/-- The document `saveToFile` writes (line 144): a JSON array of the
records, in order. -/
def serializeTransactions (txs : List TransactionData) : Json :=
  Json.arr (txs.map jsonOfRecord)

/-!
## Instruction Classifier

Modelled from the spec: the Instruction Classifier of spec §4.3 has no
implementation under `src/` — `src/index.ts` only serializes the raw
instruction list (line 81) and never classifies. The definitions below
follow §4.3's dispatch table word for word: system program with a
positive parsed transfer amount → `NativeSOLTransfer`; token program
with parsed operation "transfer" → `SPLTokenTransfer`; any other
program identifier, or a recognized one whose parsed detail does not
match, → `UnknownInstruction` with the best-effort decoded payload
bytes; an undecodable opaque payload → `InvalidData`.
-/

/-- Modelled from the spec: the closed event-type set of §4.3. -/
inductive EventType where
  | NativeSOLTransfer
  | SPLTokenTransfer
  | UnknownInstruction
  | InvalidData
  deriving Repr, DecidableEq

/-- Modelled from the spec: `{source, destination, amount}` detail of a
recognized transfer. -/
structure TransferDetail where
  source : String
  destination : String
  amount : Int
  deriving Repr, DecidableEq

/-- Modelled from the spec: the event-specific detail — a structured
transfer, best-effort raw payload bytes, or nothing (`InvalidData`). -/
inductive ClassifyDetail where
  | transfer (d : TransferDetail)
  | rawBytes (bytes : List Nat)
  | absent
  deriving Repr, DecidableEq

/-- Modelled from the spec: the classifier's tagged result — always a
valid `(eventType, detail)` pair, never an exception. -/
structure ClassifiedEvent where
  eventType : EventType
  detail : ClassifyDetail
  deriving Repr, DecidableEq

/-- Modelled from the spec: the pre-parsed detail a "jsonParsed"
instruction exposes (operation name, endpoints, unit amount). -/
structure ParsedDetail where
  op : String
  source : String
  destination : String
  amount : Int
  deriving Repr, DecidableEq

/-- Modelled from the spec: a raw instruction as the classifier sees it:
its program identifier's payload, possibly pre-parsed, plus the opaque
data field after base-58 decoding (`none` when it cannot be decoded). -/
structure RawInstruction where
  parsed : Option ParsedDetail
  dataBytes : Option (List Nat)
  deriving Repr, DecidableEq

/-- The native system program identifier. -/
def systemProgramId : String := "11111111111111111111111111111111"

/-- The canonical token program identifier. -/
def tokenProgramId : String := "TokenkegQfeZtvSeW46zLyHx6S6VDeqFb1YDXoM6rV5J"

/-- Modelled from the spec: best-effort fallback of §4.3's last two
bullets — decodable payload → `UnknownInstruction` with its bytes,
undecodable → `InvalidData` with no detail. -/
def fallbackClassify (ins : RawInstruction) : ClassifiedEvent :=
  match ins.dataBytes with
  | some bs => ⟨EventType.UnknownInstruction, ClassifyDetail.rawBytes bs⟩
  | none => ⟨EventType.InvalidData, ClassifyDetail.absent⟩

/-- Modelled from the spec: `classify(programId, instruction)` per the
dispatch table of §4.3. -/
def classify (programId : String) (ins : RawInstruction) : ClassifiedEvent :=
  if programId = systemProgramId then
    match ins.parsed with
    | some p =>
      if 0 < p.amount then
        ⟨EventType.NativeSOLTransfer,
         ClassifyDetail.transfer ⟨p.source, p.destination, p.amount⟩⟩
      else fallbackClassify ins
    | none => fallbackClassify ins
  else if programId = tokenProgramId then
    match ins.parsed with
    | some p =>
      if p.op = "transfer" then
        ⟨EventType.SPLTokenTransfer,
         ClassifyDetail.transfer ⟨p.source, p.destination, p.amount⟩⟩
      else fallbackClassify ins
    | none => fallbackClassify ins
  else fallbackClassify ins

/-!
## Concrete sample inputs

Small concrete RPC payloads used to evaluate the pipeline at explicit
inputs in the witness theorems below.
-/

/-- A well-formed transaction: two account keys, meta with balances
`[10, 7] → [3, 12]`, fee 5000, no error. -/
def sampleTx : TransactionResponse :=
  { transaction :=
      { signatures := ["sig1"]
        message := { accountKeys := some ["A", "B"], instructions := [] } }
    meta := some { fee := 5000, preBalances := [10, 7], postBalances := [3, 12], err := none } }

/-- The record `transformTransaction sampleTx 100 42 "bh" 0 "t"` produces. -/
def sampleRecord : TransactionData :=
  { hash := some "sig1", nonce := none, transaction_index := 0, from_address := "A",
    to_address := "B", value := 5, gas := 5000, gas_price := 1, input := "[]",
    receipt_cumulative_gas_used := 5000, receipt_gas_used := 5000,
    receipt_contract_address := none, receipt_root := none, receipt_status := 1,
    block_timestamp := 100, block_number := 42, block_hash := "bh",
    max_fee_per_gas := 0, max_priority_fee_per_gas := 0, transaction_type := 0,
    receipt_effective_gas_price := 0, source := "solana_testnet", created_at := "t" }

/-- A transaction with a single account key and no meta. -/
def txB : TransactionResponse :=
  { transaction :=
      { signatures := ["sigB"]
        message := { accountKeys := some ["C"], instructions := [] } }
    meta := none }

/-- The record `transformTransaction txB 100 42 "bh" 1 "t"` produces. -/
def recB : TransactionData :=
  { hash := some "sigB", nonce := none, transaction_index := 1, from_address := "C",
    to_address := "", value := 0, gas := 0, gas_price := 1, input := "[]",
    receipt_cumulative_gas_used := 0, receipt_gas_used := 0,
    receipt_contract_address := none, receipt_root := none, receipt_status := 1,
    block_timestamp := 100, block_number := 42, block_hash := "bh",
    max_fee_per_gas := 0, max_priority_fee_per_gas := 0, transaction_type := 0,
    receipt_effective_gas_price := 0, source := "solana_testnet", created_at := "t" }

/-- A malformed transaction: present but empty account-key list. -/
def malformedTx : TransactionResponse :=
  { transaction :=
      { signatures := []
        message := { accountKeys := some [], instructions := [] } }
    meta := none }

/-- A block holding `sampleTx` then `txB`. -/
def sampleBlock : BlockResponse :=
  { blockhash := "bh", blockTime := some 100, transactions := [sampleTx, txB] }

/-- A block with a malformed transaction between two good ones. -/
def blockWithMalformed : BlockResponse :=
  { blockhash := "bh", blockTime := some 100
    transactions := [sampleTx, malformedTx, txB] }

/-- A block source on which every fetch fails (`getBlockData` → `null`). -/
def emptySource : Int → Option BlockResponse := fun _ => none

/-- A block source that serves `sampleBlock` at slot 42 and fails on
every other slot. -/
def oneBlockSource : Int → Option BlockResponse :=
  fun s => if s = 42 then some sampleBlock else none

/-- A transaction crediting the second account with an amount above the
double-precision exact-integer range (`2^60 + 1 > 2^53`). -/
def bigTx : TransactionResponse :=
  { transaction :=
      { signatures := ["s"]
        message := { accountKeys := some ["A", "B"], instructions := [] } }
    meta := some { fee := 0, preBalances := [0, 0],
                   postBalances := [0, 1152921504606846977], err := none } }

/-- The record `transformTransaction bigTx 0 1 "h" 0 "t"` produces. -/
def bigRecord : TransactionData :=
  { hash := some "s", nonce := none, transaction_index := 0, from_address := "A",
    to_address := "B", value := 1152921504606846977, gas := 0, gas_price := 1,
    input := "[]", receipt_cumulative_gas_used := 0, receipt_gas_used := 0,
    receipt_contract_address := none, receipt_root := none, receipt_status := 1,
    block_timestamp := 0, block_number := 1, block_hash := "h",
    max_fee_per_gas := 0, max_priority_fee_per_gas := 0, transaction_type := 0,
    receipt_effective_gas_price := 0, source := "solana_testnet", created_at := "t" }

/-- An instruction with no parsed detail but base-58-decodable data. -/
def insDecodable : RawInstruction := { parsed := none, dataBytes := some [1, 2, 3] }

/-- An instruction whose opaque payload cannot be decoded. -/
def insOpaque : RawInstruction := { parsed := none, dataBytes := none }

/-- A parsed detail matching neither recognized shape: operation
`"mint"` (not a transfer) with amount 0 (not positive). -/
def mismatchParsed : ParsedDetail :=
  { op := "mint", source := "S", destination := "D", amount := 0 }

/-- An instruction with a present but mismatched parsed detail and a
decodable payload. -/
def insMismatch : RawInstruction :=
  { parsed := some mismatchParsed, dataBytes := some [7] }

/-- An instruction with a present but mismatched parsed detail whose
opaque payload cannot be decoded. -/
def insMismatchOpaque : RawInstruction :=
  { parsed := some mismatchParsed, dataBytes := none }

/-!
## Helper lemmas

Equation lemmas for `transformTransaction` (one per branch of the
account-key guard at line 62) and structural lemmas about block and
slot processing, shared by the claim theorems below.
-/

theorem transform_eq_none_of_acct_none (tx : TransactionResponse) (ts bn : Int)
    (bh : String) (idx : Nat) (now : String)
    (h : tx.transaction.message.accountKeys = none) :
    transformTransaction tx ts bn bh idx now = none := by
  unfold transformTransaction
  rw [h]

theorem transform_eq_none_of_acct_nil (tx : TransactionResponse) (ts bn : Int)
    (bh : String) (idx : Nat) (now : String)
    (h : tx.transaction.message.accountKeys = some []) :
    transformTransaction tx ts bn bh idx now = none := by
  unfold transformTransaction
  rw [h]

theorem transform_eq_some_of_acct_cons (tx : TransactionResponse) (ts bn : Int)
    (bh : String) (idx : Nat) (now : String) (k0 : String) (rest : List String)
    (h : tx.transaction.message.accountKeys = some (k0 :: rest)) :
    transformTransaction tx ts bn bh idx now = some
      { hash := tx.transaction.signatures.head?
        nonce := none
        transaction_index := idx
        from_address := k0
        to_address := rest.headD ""
        value := max 0 (postBalance1 tx - preBalance1 tx)
        gas := feeOf tx
        gas_price := 1
        input := stringifyInstructions tx.transaction.message.instructions
        receipt_cumulative_gas_used := feeOf tx
        receipt_gas_used := feeOf tx
        receipt_contract_address := none
        receipt_root := none
        receipt_status := statusOf tx
        block_timestamp := ts
        block_number := bn
        block_hash := bh
        max_fee_per_gas := 0
        max_priority_fee_per_gas := 0
        transaction_type := 0
        receipt_effective_gas_price := 0
        source := "solana_testnet"
        created_at := now } := by
  unfold transformTransaction
  rw [h]

/-- Every field of a successfully normalized record, read off the single
`some` branch of `transformTransaction`. -/
theorem transform_some_elim {tx : TransactionResponse} {ts bn : Int} {bh : String}
    {idx : Nat} {now : String} {r : TransactionData}
    (h : transformTransaction tx ts bn bh idx now = some r) :
    r.transaction_index = idx ∧ r.block_number = bn ∧ r.block_timestamp = ts ∧
    r.block_hash = bh ∧ r.value = max 0 (postBalance1 tx - preBalance1 tx) ∧
    r.gas = feeOf tx ∧ r.receipt_cumulative_gas_used = feeOf tx ∧
    r.receipt_gas_used = feeOf tx ∧ r.nonce = none ∧
    r.receipt_contract_address = none ∧ r.receipt_root = none ∧
    r.max_fee_per_gas = 0 ∧ r.max_priority_fee_per_gas = 0 ∧
    r.transaction_type = 0 ∧ r.receipt_effective_gas_price = 0 ∧
    r.gas_price = 1 ∧ r.receipt_status = statusOf tx ∧
    r.source = "solana_testnet" ∧ r.created_at = now := by
  rcases hak : tx.transaction.message.accountKeys with _ | ⟨_ | ⟨k0, rest⟩⟩
  · rw [transform_eq_none_of_acct_none tx ts bn bh idx now hak] at h
    cases h
  · rw [transform_eq_none_of_acct_nil tx ts bn bh idx now hak] at h
    cases h
  · rw [transform_eq_some_of_acct_cons tx ts bn bh idx now k0 rest hak] at h
    injection h with h
    subst h
    exact ⟨rfl, rfl, rfl, rfl, rfl, rfl, rfl, rfl, rfl, rfl, rfl, rfl, rfl, rfl,
      rfl, rfl, rfl, rfl, rfl⟩

/-- The normalized index of the `forEach` step equals the paired source
position, and the record carries the slot it was built for. -/
theorem txRecord_some_elim {ts bn : Int} {bh now : String}
    {p : Nat × TransactionResponse} {r : TransactionData}
    (h : txRecord ts bn bh now p = some r) :
    r.transaction_index = p.1 ∧ r.block_number = bn :=
  ⟨(transform_some_elim h).1, (transform_some_elim h).2.1⟩

/-- Records surviving the filter over positions `n, n+1, …` carry an
index of at least `n`. -/
theorem le_index_of_mem_enumFrom_filterMap (ts bn : Int) (bh now : String) :
    ∀ (l : List TransactionResponse) (n : Nat) (r : TransactionData),
      r ∈ (List.enumFrom n l).filterMap (txRecord ts bn bh now) →
      n ≤ r.transaction_index := by
  intro l
  induction l with
  | nil => intro n r h; simp at h
  | cons tx l ih =>
    intro n r h
    rw [List.enumFrom_cons] at h
    rcases hF : txRecord ts bn bh now (n, tx) with _ | r0
    · rw [List.filterMap_cons_none hF] at h
      exact Nat.le_of_succ_le (ih (n + 1) r h)
    · rw [List.filterMap_cons_some hF] at h
      rcases List.mem_cons.mp h with rfl | h2
      · exact Nat.le_of_eq (txRecord_some_elim hF).1.symm
      · exact Nat.le_of_succ_le (ih (n + 1) r h2)

/-- The indices of the records produced from positions `n, n+1, …` are
strictly increasing. -/
theorem pairwise_index_enumFrom_filterMap (ts bn : Int) (bh now : String) :
    ∀ (l : List TransactionResponse) (n : Nat),
      (((List.enumFrom n l).filterMap (txRecord ts bn bh now)).map
        (fun r => r.transaction_index)).Pairwise (· < ·) := by
  intro l
  induction l with
  | nil => intro n; simp
  | cons tx l ih =>
    intro n
    rw [List.enumFrom_cons]
    rcases hF : txRecord ts bn bh now (n, tx) with _ | r0
    · rw [List.filterMap_cons_none hF]
      exact ih (n + 1)
    · rw [List.filterMap_cons_some hF, List.map_cons]
      refine List.Pairwise.cons ?_ (ih (n + 1))
      intro y hy
      rcases List.mem_map.mp hy with ⟨s, hs, rfl⟩
      have h1 : n + 1 ≤ s.transaction_index :=
        le_index_of_mem_enumFrom_filterMap ts bn bh now l (n + 1) s hs
      have h0 : r0.transaction_index = n := (txRecord_some_elim hF).1
      omega

/-- Every record of a processed block carries the block's slot. -/
theorem block_number_of_mem_processBlock {b : BlockResponse} {slot : Int}
    {now : String} {r : TransactionData} (h : r ∈ processBlock b slot now) :
    r.block_number = slot := by
  rcases List.mem_filterMap.mp h with ⟨p, _, hF⟩
  exact (txRecord_some_elim hF).2

/-- Every record of a processed slot carries that slot. -/
theorem block_number_of_mem_processSlot {g : Int → Option BlockResponse}
    {s : Int} {now : String} {r : TransactionData}
    (h : r ∈ processSlot g s now) : r.block_number = s := by
  unfold processSlot at h
  rcases hg : g s with _ | b
  · rw [hg] at h; cases h
  · rw [hg] at h; exact block_number_of_mem_processBlock h

/-!
## Claim theorems
-/

/-- Claim C1: every normalized record's `value` equals
`max(0, postBalance[1] − preBalance[1])`, where a missing pre- or
post-balance entry for the second account (or missing meta) contributes
0 on that side (`preBalance1`/`postBalance1` are the source's
`tx.meta?.preBalances[1] || 0` and `tx.meta?.postBalances[1] || 0`),
and the value is never negative. -/
theorem c1_value_clipped_delta (tx : TransactionResponse) (ts bn : Int)
    (bh : String) (idx : Nat) (now : String) (r : TransactionData)
    (h : transformTransaction tx ts bn bh idx now = some r) :
    r.value = max 0 (postBalance1 tx - preBalance1 tx) ∧ 0 ≤ r.value := by
  have hv := (transform_some_elim h).2.2.2.2.1
  exact ⟨hv, hv ▸ le_max_left 0 _⟩

/-- Witness for C1 at the concrete input `sampleTx` (balances
`7 → 12`, value 5). -/
theorem c1_witness :
    transformTransaction sampleTx 100 42 "bh" 0 "t" = some sampleRecord ∧
    (sampleRecord.value = max 0 (postBalance1 sampleTx - preBalance1 sampleTx) ∧
      0 ≤ sampleRecord.value) :=
  ⟨by decide, c1_value_clipped_delta sampleTx 100 42 "bh" 0 "t" sampleRecord (by decide)⟩

/-- Claim C6: in every record the normalizer produces, the fields with
no chain analogue — `nonce`, `receipt_contract_address` (and
`receipt_root`), and the multi-tier gas pricing fields
`max_fee_per_gas`, `max_priority_fee_per_gas`,
`receipt_effective_gas_price` (and `transaction_type`) — hold the fixed
neutral defaults `null` or `0`, never anything else. -/
theorem c6_neutral_defaults (tx : TransactionResponse) (ts bn : Int)
    (bh : String) (idx : Nat) (now : String) (r : TransactionData)
    (h : transformTransaction tx ts bn bh idx now = some r) :
    r.nonce = none ∧ r.receipt_contract_address = none ∧
    r.receipt_root = none ∧ r.max_fee_per_gas = 0 ∧
    r.max_priority_fee_per_gas = 0 ∧ r.receipt_effective_gas_price = 0 ∧
    r.transaction_type = 0 := by
  obtain ⟨-, -, -, -, -, -, -, -, h9, h10, h11, h12, h13, h14, h15, -, -, -, -⟩ :=
    transform_some_elim h
  exact ⟨h9, h10, h11, h12, h13, h15, h14⟩

/-- Witness for C6 at the concrete input `sampleTx`. -/
theorem c6_witness :
    sampleRecord.nonce = none ∧ sampleRecord.receipt_contract_address = none ∧
    sampleRecord.receipt_root = none ∧ sampleRecord.max_fee_per_gas = 0 ∧
    sampleRecord.max_priority_fee_per_gas = 0 ∧
    sampleRecord.receipt_effective_gas_price = 0 ∧
    sampleRecord.transaction_type = 0 :=
  c6_neutral_defaults sampleTx 100 42 "bh" 0 "t" sampleRecord (by decide)

/-- Claim C8: when the account-key list is non-empty, `from_address` is
the first key and `to_address` the second key when present, else the
empty string. -/
theorem c8_addresses (tx : TransactionResponse) (ts bn : Int) (bh : String)
    (idx : Nat) (now : String) (k0 : String) (rest : List String)
    (r : TransactionData)
    (hak : tx.transaction.message.accountKeys = some (k0 :: rest))
    (h : transformTransaction tx ts bn bh idx now = some r) :
    r.from_address = k0 ∧ r.to_address = rest.headD "" ∧
    (∀ (k1 : String) (l : List String), rest = k1 :: l → r.to_address = k1) ∧
    (rest = [] → r.to_address = "") := by
  rw [transform_eq_some_of_acct_cons tx ts bn bh idx now k0 rest hak] at h
  injection h with h
  subst h
  refine ⟨rfl, rfl, ?_, ?_⟩
  · intro k1 l hr
    rw [hr]
    rfl
  · intro hr
    rw [hr]
    rfl

/-- Witness for C8 at the concrete input `sampleTx` (keys `["A", "B"]`). -/
theorem c8_witness :
    sampleRecord.from_address = "A" ∧ sampleRecord.to_address = ["B"].headD "" ∧
    (∀ (k1 : String) (l : List String), ["B"] = k1 :: l →
      sampleRecord.to_address = k1) ∧
    (["B"] = ([] : List String) → sampleRecord.to_address = "") :=
  c8_addresses sampleTx 100 42 "bh" 0 "t" "A" ["B"] sampleRecord rfl (by decide)

/-- Claim C10: the three fee-related fields `gas`,
`receipt_cumulative_gas_used` and `receipt_gas_used` of every produced
record are all equal — each is the transaction's reported fee
(`tx.meta?.fee || 0`), and 0 when no meta is present. -/
theorem c10_fee_fields (tx : TransactionResponse) (ts bn : Int) (bh : String)
    (idx : Nat) (now : String) (r : TransactionData)
    (h : transformTransaction tx ts bn bh idx now = some r) :
    r.gas = feeOf tx ∧ r.receipt_cumulative_gas_used = feeOf tx ∧
    r.receipt_gas_used = feeOf tx ∧
    (∀ m, tx.meta = some m → r.gas = m.fee) ∧
    (tx.meta = none → r.gas = 0) := by
  obtain ⟨-, -, -, -, -, h6, h7, h8, -⟩ := transform_some_elim h
  refine ⟨h6, h7, h8, ?_, ?_⟩
  · intro m hm
    rw [h6]
    unfold feeOf
    rw [hm]
  · intro hm
    rw [h6]
    unfold feeOf
    rw [hm]

/-- Witness for C10 at the concrete input `sampleTx` (fee 5000). -/
theorem c10_witness :
    sampleRecord.gas = feeOf sampleTx ∧
    sampleRecord.receipt_cumulative_gas_used = feeOf sampleTx ∧
    sampleRecord.receipt_gas_used = feeOf sampleTx ∧
    (∀ m, sampleTx.meta = some m → sampleRecord.gas = m.fee) ∧
    (sampleTx.meta = none → sampleRecord.gas = 0) :=
  c10_fee_fields sampleTx 100 42 "bh" 0 "t" sampleRecord (by decide)

/-- Claim C2: the run over `n` blocks attempts exactly the `n` distinct,
contiguous, strictly descending slots `currentSlot, currentSlot − 1, …,
currentSlot − (n−1)` (the current slot is read once, before the loop —
in the embedding it is the single `cs` value every iteration offsets),
and every returned record's `block_number` is one of those slots. -/
theorem c2_descending_window (getBlock : Int → Option BlockResponse)
    (cs : Int) (n : Nat) (now : String) :
    (attemptedSlots cs n).length = n ∧
    (attemptedSlots cs n).Nodup ∧
    (attemptedSlots cs n).Pairwise (fun a b => b < a) ∧
    (∀ i : Nat, i < n → (attemptedSlots cs n)[i]? = some (cs - (i : Int))) ∧
    (∀ r ∈ queryRecentBlocks getBlock cs n now,
      r.block_number ∈ attemptedSlots cs n) := by
  have hdesc : (attemptedSlots cs n).Pairwise (fun a b => b < a) := by
    unfold attemptedSlots
    rw [List.pairwise_map]
    exact (List.pairwise_lt_range n).imp (fun h => by omega)
  refine ⟨by simp [attemptedSlots], hdesc.imp (fun h => ne_of_gt h), hdesc, ?_, ?_⟩
  · intro i hi
    unfold attemptedSlots
    rw [List.getElem?_map, List.getElem?_range hi]
    rfl
  · intro r hr
    rcases List.mem_flatMap.mp hr with ⟨i, hi, hproc⟩
    exact List.mem_map.mpr ⟨i, hi, (block_number_of_mem_processSlot hproc).symm⟩

/-- Witness for C2 at the concrete source `oneBlockSource`, current
slot 42, one block. -/
theorem c2_witness :
    (attemptedSlots 42 1).length = 1 ∧
    (attemptedSlots 42 1).Nodup ∧
    (attemptedSlots 42 1).Pairwise (fun a b => b < a) ∧
    (attemptedSlots 42 1)[0]? = some (42 - ((0 : Nat) : Int)) ∧
    sampleRecord.block_number ∈ attemptedSlots 42 1 := by
  have H := c2_descending_window oneBlockSource 42 1 "t"
  exact ⟨H.1, H.2.1, H.2.2.1, H.2.2.2.1 0 (by decide),
    H.2.2.2.2 sampleRecord (by decide)⟩

/-- Claim C3: a slot whose fetch yields nothing contributes zero records
(`processSlot` returns `[]` rather than raising), and the run's result
is the records of the earlier slots (exactly what a shorter run up to
that slot produces — so records already accumulated are kept) followed
by the records of the remaining slots, processed unchanged. -/
theorem c3_unavailable_slot_skipped (g : Int → Option BlockResponse)
    (cs : Int) (now : String) (n i0 : Nat) (hi : i0 < n)
    (hg : g (cs - (i0 : Int)) = none) :
    processSlot g (cs - (i0 : Int)) now = [] ∧
    queryRecentBlocks g cs n now =
      queryRecentBlocks g cs i0 now ++
      (List.range (n - (i0 + 1))).flatMap
        (fun j => processSlot g (cs - (i0 : Int) - 1 - (j : Int)) now) := by
  have h1 : processSlot g (cs - (i0 : Int)) now = [] := by
    unfold processSlot
    rw [hg]
  refine ⟨h1, ?_⟩
  unfold queryRecentBlocks
  have hn : n = (i0 + 1) + (n - (i0 + 1)) := by omega
  conv_lhs => rw [hn, List.range_add]
  rw [List.flatMap_append, List.range_succ, List.flatMap_append, List.flatMap_map]
  simp only [List.flatMap_cons, List.flatMap_nil, List.append_nil, h1]
  have harg : ∀ x : Nat,
      cs - ((i0 + 1 + x : Nat) : Int) = cs - (i0 : Int) - 1 - (x : Int) := by
    intro x
    push_cast
    ring
  simp only [harg]

/-- Witness for C3: source `oneBlockSource`, current slot 42, two
blocks, where the second slot (41) is unavailable and the first slot's
records are kept. -/
theorem c3_witness :
    processSlot oneBlockSource ((42 : Int) - ((1 : Nat) : Int)) "t" = [] ∧
    queryRecentBlocks oneBlockSource 42 2 "t" =
      queryRecentBlocks oneBlockSource 42 1 "t" ++
      (List.range (2 - (1 + 1))).flatMap
        (fun j => processSlot oneBlockSource
          ((42 : Int) - ((1 : Nat) : Int) - 1 - (j : Int)) "t") :=
  c3_unavailable_slot_skipped oneBlockSource 42 "t" 2 1 (by decide) (by decide)

/-- Claim C4: a transaction with an absent or empty account-key list
normalizes to `none` (for any block context), and the enclosing block's
other transactions — before and after it — are still processed at their
own positions, unaffected; `transformTransaction` is a total function,
so normalization cannot throw. -/
theorem c4_malformed_skipped (b : BlockResponse) (slot : Int) (now : String)
    (pre post : List TransactionResponse) (tx : TransactionResponse)
    (hb : b.transactions = pre ++ tx :: post)
    (hak : tx.transaction.message.accountKeys = none ∨
      tx.transaction.message.accountKeys = some []) :
    (∀ (ts bn : Int) (bh : String) (idx : Nat) (now2 : String),
      transformTransaction tx ts bn bh idx now2 = none) ∧
    processBlock b slot now =
      pre.enum.filterMap (txRecord (b.blockTime.getD 0) slot b.blockhash now) ++
      (List.enumFrom (pre.length + 1) post).filterMap
        (txRecord (b.blockTime.getD 0) slot b.blockhash now) := by
  have hnone : ∀ (ts bn : Int) (bh : String) (idx : Nat) (now2 : String),
      transformTransaction tx ts bn bh idx now2 = none := by
    intro ts bn bh idx now2
    rcases hak with h | h
    · exact transform_eq_none_of_acct_none tx ts bn bh idx now2 h
    · exact transform_eq_none_of_acct_nil tx ts bn bh idx now2 h
  refine ⟨hnone, ?_⟩
  unfold processBlock
  rw [hb]
  simp only [List.enum_eq_enumFrom, List.enumFrom_append, List.enumFrom_cons,
    Nat.zero_add, List.filterMap_append]
  have hcons : txRecord (b.blockTime.getD 0) slot b.blockhash now
      (pre.length, tx) = none :=
    hnone (b.blockTime.getD 0) slot b.blockhash pre.length now
  rw [List.filterMap_cons_none hcons]

/-- Witness for C4 at the concrete block `blockWithMalformed`, whose
middle transaction has an empty key list. -/
theorem c4_witness :
    (∀ (ts bn : Int) (bh : String) (idx : Nat) (now2 : String),
      transformTransaction malformedTx ts bn bh idx now2 = none) ∧
    processBlock blockWithMalformed 42 "t" =
      [sampleTx].enum.filterMap
        (txRecord (blockWithMalformed.blockTime.getD 0) 42
          blockWithMalformed.blockhash "t") ++
      (List.enumFrom ([sampleTx].length + 1) [txB]).filterMap
        (txRecord (blockWithMalformed.blockTime.getD 0) 42
          blockWithMalformed.blockhash "t") :=
  c4_malformed_skipped blockWithMalformed 42 "t" [sampleTx] [txB] malformedTx
    rfl (Or.inr rfl)

/-- Claim C9: within one processed block, the emitted records' indices
equal their transactions' positions in the block's source order, and
they are pairwise distinct and strictly ascending in the output. -/
theorem c9_indexes_match_source (b : BlockResponse) (slot : Int) (now : String) :
    ((processBlock b slot now).map (fun r => r.transaction_index)).Pairwise (· < ·) ∧
    ∀ r ∈ processBlock b slot now,
      ∃ tx, b.transactions[r.transaction_index]? = some tx ∧
        transformTransaction tx (b.blockTime.getD 0) slot b.blockhash
          r.transaction_index now = some r := by
  constructor
  · unfold processBlock
    rw [List.enum_eq_enumFrom]
    exact pairwise_index_enumFrom_filterMap (b.blockTime.getD 0) slot
      b.blockhash now b.transactions 0
  · intro r hr
    rcases List.mem_filterMap.mp hr with ⟨⟨i, tx⟩, hp, hF⟩
    have hi : b.transactions[i]? = some tx := List.mem_enum_iff_getElem?.mp hp
    have hidx : r.transaction_index = i := (txRecord_some_elim hF).1
    refine ⟨tx, ?_, ?_⟩
    · rw [hidx]
      exact hi
    · rw [hidx]
      exact hF

/-- Claim C5 is false of the code: `saveToFile` serializes with a plain
`JSON.stringify(transactions, null, 2)`, so a large `value` such as
`2^60 + 1` (above the double-precision exact-integer range) appears in
the document as a numeric literal (`Json.num`), not as a decimal
string. Concretely, normalizing `bigTx` yields `bigRecord` whose
serialized `value` field is `Json.num 1152921504606846977`, which is
not a string. -/
theorem c5_counterexample :
    transformTransaction bigTx 0 1 "h" 0 "t" = some bigRecord ∧
    Json.lookupField (jsonOfRecord bigRecord) "value" =
      some (Json.num 1152921504606846977) ∧
    Json.isStr (Json.num 1152921504606846977) = false :=
  ⟨by decide, rfl, rfl⟩

/-- Claim C5 (amended): the serialized output document renders every
record's `value` as a JSON numeric literal — never as a decimal
string; no string conversion is applied to large integers, so lossless
decoding is guaranteed only while numbers are exact. -/
theorem c5_amended_numeric_literal : ∀ r : TransactionData,
    Json.lookupField (jsonOfRecord r) "value" = some (Json.num r.value) ∧
    Json.isStr (Json.num r.value) = false := by
  intro r
  rcases r with ⟨hash, _, _, _, _, _, _, _, _, _, _, _, _, _, _, _, _, _, _, _, _, _, _⟩
  rcases hash with _ | h <;> exact ⟨rfl, rfl⟩

/-- Claim C7: classification by program identifier is total and never
throws — `classify` is a total function always returning a tagged
result. An unrecognized program identifier, and a recognized one with
an unexpected payload shape (no parsed detail at all, the system
program with a non-positive parsed amount, or the token program with a
parsed operation other than "transfer"), yields `UnknownInstruction`
when the payload decodes; in each of those cases an undecodable
payload yields `InvalidData`. -/
theorem c7_classify_total (pid : String) (ins : RawInstruction) :
    (∀ bs, ins.dataBytes = some bs → pid ≠ systemProgramId →
      pid ≠ tokenProgramId →
      classify pid ins =
        ⟨EventType.UnknownInstruction, ClassifyDetail.rawBytes bs⟩) ∧
    (∀ bs, ins.dataBytes = some bs → ins.parsed = none →
      classify pid ins =
        ⟨EventType.UnknownInstruction, ClassifyDetail.rawBytes bs⟩) ∧
    (∀ bs p, ins.dataBytes = some bs → ins.parsed = some p →
      pid = systemProgramId → p.amount ≤ 0 →
      classify pid ins =
        ⟨EventType.UnknownInstruction, ClassifyDetail.rawBytes bs⟩) ∧
    (∀ bs p, ins.dataBytes = some bs → ins.parsed = some p →
      pid = tokenProgramId → p.op ≠ "transfer" →
      classify pid ins =
        ⟨EventType.UnknownInstruction, ClassifyDetail.rawBytes bs⟩) ∧
    (ins.dataBytes = none → pid ≠ systemProgramId → pid ≠ tokenProgramId →
      classify pid ins = ⟨EventType.InvalidData, ClassifyDetail.absent⟩) ∧
    (ins.dataBytes = none → ins.parsed = none →
      classify pid ins = ⟨EventType.InvalidData, ClassifyDetail.absent⟩) ∧
    (∀ p, ins.dataBytes = none → ins.parsed = some p →
      pid = systemProgramId → p.amount ≤ 0 →
      classify pid ins = ⟨EventType.InvalidData, ClassifyDetail.absent⟩) ∧
    (∀ p, ins.dataBytes = none → ins.parsed = some p →
      pid = tokenProgramId → p.op ≠ "transfer" →
      classify pid ins = ⟨EventType.InvalidData, ClassifyDetail.absent⟩) ∧
    ((classify pid ins).eventType = EventType.NativeSOLTransfer ∨
     (classify pid ins).eventType = EventType.SPLTokenTransfer ∨
     (classify pid ins).eventType = EventType.UnknownInstruction ∨
     (classify pid ins).eventType = EventType.InvalidData) := by
  refine ⟨?_, ?_, ?_, ?_, ?_, ?_, ?_, ?_, ?_⟩
  · intro bs hbs h1 h2
    unfold classify
    rw [if_neg h1, if_neg h2]
    unfold fallbackClassify
    rw [hbs]
  · intro bs hbs hp
    simp only [classify, hp, fallbackClassify, hbs]
    split_ifs <;> rfl
  · intro bs p hbs hp hpid hle
    subst hpid
    have hnot : ¬ (0 : Int) < p.amount := not_lt.mpr hle
    simp [classify, hp, hnot, fallbackClassify, hbs]
  · intro bs p hbs hp hpid hop
    subst hpid
    have hne : tokenProgramId ≠ systemProgramId := by decide
    simp [classify, hp, hop, hne, fallbackClassify, hbs]
  · intro hbs h1 h2
    unfold classify
    rw [if_neg h1, if_neg h2]
    unfold fallbackClassify
    rw [hbs]
  · intro hbs hp
    simp only [classify, hp, fallbackClassify, hbs]
    split_ifs <;> rfl
  · intro p hbs hp hpid hle
    subst hpid
    have hnot : ¬ (0 : Int) < p.amount := not_lt.mpr hle
    simp [classify, hp, hnot, fallbackClassify, hbs]
  · intro p hbs hp hpid hop
    subst hpid
    have hne : tokenProgramId ≠ systemProgramId := by decide
    simp [classify, hp, hop, hne, fallbackClassify, hbs]
  · cases h : (classify pid ins).eventType <;> simp [h]

/-- Witness for C7 at concrete inputs: an unrecognized identifier with
decodable and undecodable payloads, the system program with a
non-positive parsed amount, and the token program with a non-transfer
parsed operation. -/
theorem c7_witness :
    classify "prog" insDecodable =
      ⟨EventType.UnknownInstruction, ClassifyDetail.rawBytes [1, 2, 3]⟩ ∧
    classify "prog" insOpaque =
      ⟨EventType.InvalidData, ClassifyDetail.absent⟩ ∧
    classify systemProgramId insMismatch =
      ⟨EventType.UnknownInstruction, ClassifyDetail.rawBytes [7]⟩ ∧
    classify tokenProgramId insMismatchOpaque =
      ⟨EventType.InvalidData, ClassifyDetail.absent⟩ :=
  ⟨(c7_classify_total "prog" insDecodable).1 [1, 2, 3] rfl (by decide) (by decide),
   (c7_classify_total "prog" insOpaque).2.2.2.2.1 rfl (by decide) (by decide),
   (c7_classify_total systemProgramId insMismatch).2.2.1 [7] mismatchParsed
     rfl rfl rfl (by decide),
   (c7_classify_total tokenProgramId insMismatchOpaque).2.2.2.2.2.2.2.1
     mismatchParsed rfl rfl rfl (by decide)⟩

/-- Witness for C9 at the concrete block `sampleBlock` and its first
record. -/
theorem c9_witness :
    ((processBlock sampleBlock 42 "t").map (fun r => r.transaction_index)).Pairwise
      (· < ·) ∧
    ∃ tx, sampleBlock.transactions[sampleRecord.transaction_index]? = some tx ∧
      transformTransaction tx (sampleBlock.blockTime.getD 0) 42
        sampleBlock.blockhash sampleRecord.transaction_index "t" =
        some sampleRecord :=
  ⟨(c9_indexes_match_source sampleBlock 42 "t").1,
   (c9_indexes_match_source sampleBlock 42 "t").2 sampleRecord (by decide)⟩

end TxParser
